import Mathlib

/-!
Verification of the triage decision core (`smart_router.py`) of the
chatbot-triage repository.

The three operations under study are `classify_initial_urgency`,
`route_to_phase` and `route` (with its helper `_search_specialized_service`),
all methods of `SmartRouter` in `src/smart_router.py`.  Texts are embedded as
`String` / `List Char`; Python `None`-able values as `Option`; the regular
expressions of the keyword tables as a small executable matcher covering
exactly the constructs those patterns use (literals, `\s+`, alternation,
optional groups, word boundaries).

The `models` module (enums `TriagePath`, `TriagePhase`, `TriageBranch` and the
`TriageState` record) is not part of the source tree; those types are modelled
from the spec where so indicated.
-/

/-! ### Python-style character and string primitives -/

/-- Whitespace class of Python's `\s` / `str.strip()` (ASCII portion). -/
def pyWs (c : Char) : Bool :=
  c == ' ' || c == '\t' || c == '\n' || c == '\x0d' || c == '\x0b' || c == '\x0c'

/-- Word character for `\b` (ASCII portion of Python's `\w`). -/
def wordChar (c : Char) : Bool :=
  c.isAlphanum || c == '_'

/-- Python `str.lower()` (ASCII portion). -/
def lowerL (s : List Char) : List Char :=
  s.map Char.toLower

/-- Python `str.strip()`: drop whitespace at both ends. -/
def pyStrip (s : List Char) : List Char :=
  ((s.dropWhile pyWs).reverse.dropWhile pyWs).reverse

/-- `litPref n h` : the list `n` starts the list `h`. -/
def litPref : List Char → List Char → Bool
  | [], _ => true
  | _ :: _, [] => false
  | c :: cs, d :: ds => c == d && litPref cs ds

/-- Python's `needle in hay` substring containment on character lists. -/
def substrB (needle : List Char) : List Char → Bool
  | [] => needle.isEmpty
  | c :: cs => litPref needle (c :: cs) || substrB needle cs

/-- Python's `needle in hay` on strings. -/
def strContains (hay needle : String) : Bool :=
  substrB needle.data hay.data

/-! ### A matcher for the regex subset of the keyword tables

The patterns in `CRITICAL_RED_FLAGS` / `HIGH_RED_FLAGS` use only literal
text, `\s+`, alternation `(..|..)`, optional groups `(...)?` and the word
boundary `\b`.  `reSearch` decides, like Python's `re.search`, whether a
pattern matches anywhere in the text. -/

/-- Abstract syntax of the regex subset used by the source's patterns. -/
inductive RE : Type
  | lit : List Char → RE
  | wsP : RE
  | alt : RE → RE → RE
  | seq : RE → RE → RE
  | opt : RE → RE
  | bnd : RE
deriving DecidableEq

/-- Consume a literal; the state is (last consumed char, remaining text). -/
def dropLit : List Char → Option Char → List Char → Option (Option Char × List Char)
  | [], prev, rest => some (prev, rest)
  | _ :: _, _, [] => none
  | c :: cs, _, d :: ds => if c == d then dropLit cs (some d) ds else none

/-- All states reachable by consuming one or more whitespace characters. -/
def wsSplits : List Char → List (Option Char × List Char)
  | [] => []
  | c :: cs => if pyWs c then (some c, cs) :: wsSplits cs else []

/-- `true` iff exactly one of the two sides of the position is a word char. -/
def atBoundary (prev : Option Char) (rest : List Char) : Bool :=
  let pw := match prev with | none => false | some c => wordChar c
  let nw := match rest with | [] => false | c :: _ => wordChar c
  pw != nw

/-- All states reachable by matching `r` starting at the given state. -/
def reMatch : RE → Option Char → List Char → List (Option Char × List Char)
  | .lit s, prev, rest =>
    match dropLit s prev rest with
    | some st => [st]
    | none => []
  | .wsP, _, rest => wsSplits rest
  | .alt a b, prev, rest => reMatch a prev rest ++ reMatch b prev rest
  | .seq a b, prev, rest =>
    (reMatch a prev rest).flatMap fun st => reMatch b st.1 st.2
  | .opt a, prev, rest => (prev, rest) :: reMatch a prev rest
  | .bnd, prev, rest => if atBoundary prev rest then [(prev, rest)] else []

/-- Try to match `r` at this position or at any later one. -/
def reSearchAux (r : RE) : Option Char → List Char → Bool
  | prev, [] => !(reMatch r prev []).isEmpty
  | prev, c :: cs => !(reMatch r prev (c :: cs)).isEmpty || reSearchAux r (some c) cs

/-- Python's `re.search(r, s)` viewed as a Boolean: a match exists somewhere. -/
def reSearch (r : RE) (s : List Char) : Bool :=
  reSearchAux r none s

/-- Literal regex from a string. -/
def lch (s : String) : RE := RE.lit s.data

/-- Right-nested sequence of a list of regexes. -/
def seqs : List RE → RE
  | [] => RE.lit []
  | [r] => r
  | r :: rs => RE.seq r (seqs rs)

/-! ### Enums and records (`models` is absent from src/; modelled from the spec) -/

/-- Modelled from the spec: `models.py` is not under src/.  The spec declares
the closed enum `{A, B, C}` ("fast-track emergency / mental-health / standard
clinical processing tracks").  Python does not enforce the annotation and
`route_to_phase`'s `else` branch receives every value that is not `A` or `B`,
so the embedding carries an extra constructor `other` for values outside the
enum that a caller could store in `assigned_path`. -/
inductive TriagePath : Type
  | A
  | B
  | C
  | other : String → TriagePath
deriving DecidableEq

/-- Modelled from the spec: branch enum `{TRIAGE, INFORMAZIONI}`. -/
inductive TriageBranch : Type
  | TRIAGE
  | INFORMAZIONI
deriving DecidableEq

/-- Modelled from the spec: the conversation phases of §4.2. -/
inductive TriagePhase : Type
  | LOCATION
  | CHIEF_COMPLAINT
  | RED_FLAGS
  | PAIN_ASSESSMENT
  | DEMOGRAPHICS
  | ANAMNESIS
  | INTENT_DETECTION
  | DISPOSITION
  | EMERGENCY_OVERRIDE
deriving DecidableEq

/-- `UrgencyScore` dataclass of `smart_router.py`. -/
structure UrgencyScore : Type where
  score : Nat
  assigned_path : TriagePath
  assigned_branch : TriageBranch
  rationale : String
  detected_red_flags : List String
  requires_immediate_118 : Bool
deriving DecidableEq

/-- Modelled from the spec: `patient_info` record
`{location, age, sex, pregnancy}`, each optional/unset until answered. -/
structure PatientInfo : Type where
  location : Option String
  age : Option Nat
  sex : Option String
  pregnancy : Option Bool
deriving DecidableEq

/-- Modelled from the spec: `clinical_data` record
`{chief_complaint, pain_scale (0-10 or unset), red_flags (set of strings),
medications}`. -/
structure ClinicalData : Type where
  chief_complaint : Option String
  pain_scale : Option Nat
  red_flags : List String
  medications : List String
deriving DecidableEq

/-- Modelled from the spec: the mutable `TriageState` aggregate.
`critical_red_flags` records the critical patterns detected for the session;
it backs the derived predicate `has_critical_red_flags()`. -/
structure TriageState : Type where
  assigned_path : TriagePath
  assigned_branch : TriageBranch
  current_phase : TriagePhase
  consent_given : Bool
  patient_info : PatientInfo
  clinical_data : ClinicalData
  critical_red_flags : List String
deriving DecidableEq

/-- Modelled from the spec: "derived predicate, true once a critical pattern
has ever been recorded for this session". -/
def TriageState.has_critical_red_flags (s : TriageState) : Bool :=
  !s.critical_red_flags.isEmpty

/-- Facility recommendation returned by `route`: `{tipo, nome, note,
distance_km}`. -/
structure FacilityRec : Type where
  tipo : String
  nome : String
  note : String
  distance_km : Option Nat
deriving DecidableEq

/-- A knowledge-base facility entry; `none` fields model missing JSON keys,
read in the source through `.get(key, default)`. -/
structure Facility : Type where
  tipologia : Option String
  comune : Option String
  nome : Option String
  tipo_accesso : Option String
  telefono : Option String
deriving DecidableEq

/-- `facility.get("tipologia", "Unknown")` used by `_preprocess_structures`. -/
def Facility.typeKey (f : Facility) : String :=
  f.tipologia.getD "Unknown"

/-- `structures_kb.get(t, [])`: the facilities of type `t`, in catalog order
(`_preprocess_structures` groups by type preserving order). -/
def structuresOf (kb : List Facility) (t : String) : List Facility :=
  kb.filter fun f => f.typeKey = t

/-! ### Python truthiness on optional fields -/

/-- Truthiness of an optional string: `None` and `""` are falsy. -/
def pyTruthyStr : Option String → Bool
  | none => false
  | some s => !s.isEmpty

/-- Truthiness of an optional number: `None` and `0` are falsy. -/
def pyTruthyNat : Option Nat → Bool
  | none => false
  | some n => n != 0

/-! ### Keyword databases of `smart_router.py` -/

/-- `CRITICAL_RED_FLAGS` dict: ordered (pattern, label) pairs. -/
def CRITICAL_RED_FLAGS : List (RE × String) :=
  [ (seqs [lch "dolore", RE.wsP,
      RE.alt (lch "toracico") (RE.alt (lch "petto")
        (seqs [lch "al", RE.wsP, lch "petto"]))], "Dolore toracico"),
    (seqs [lch "oppressione", RE.wsP, lch "torace"], "Dolore toracico"),
    (seqs [lch "non", RE.wsP, lch "riesco", RE.wsP,
      RE.opt (seqs [lch "a", RE.wsP]), lch "respirare"], "Dispnea grave"),
    (lch "soffoco", "Dispnea grave"),
    (seqs [lch "perdita", RE.wsP, lch "di", RE.wsP, lch "coscienza"],
      "Perdita coscienza"),
    (RE.alt (lch "svenuto") (lch "svenimento"), "Perdita coscienza"),
    (RE.alt (RE.seq (lch "convulsion") (RE.opt (lch "i")))
      (seqs [lch "crisi", RE.wsP, lch "convulsiva"]), "Convulsioni"),
    (seqs [lch "emorragia", RE.wsP, lch "massiva"], "Emorragia massiva"),
    (seqs [lch "sangue", RE.wsP, lch "abbondante"], "Emorragia massiva"),
    (lch "paralisi", "Paralisi"),
    (seqs [RE.bnd, RE.alt (lch "braccio") (lch "gamba"), RE.wsP, lch "non",
      RE.wsP, lch "si", RE.wsP, lch "muove", RE.bnd], "Paralisi") ]

/-- `HIGH_RED_FLAGS` dict: ordered (pattern, label) pairs. -/
def HIGH_RED_FLAGS : List (RE × String) :=
  [ (seqs [lch "febbre", RE.wsP,
      RE.alt (lch "alta") (RE.alt (lch "39") (lch "40"))], "Febbre >39°C"),
    (seqs [lch "trauma", RE.wsP, lch "cranico"], "Trauma cranico"),
    (seqs [lch "battuto", RE.wsP, RE.opt (seqs [lch "forte", RE.wsP]),
      lch "testa"], "Trauma cranico"),
    (seqs [lch "vomito", RE.wsP,
      RE.alt (lch "continuo") (RE.alt (lch "persistente") (lch "sangue"))],
      "Vomito persistente"),
    (seqs [lch "dolore", RE.wsP, lch "addominale", RE.wsP, lch "acuto"],
      "Dolore addominale acuto"),
    (seqs [lch "dolore", RE.wsP, lch "pancia", RE.wsP,
      RE.opt (seqs [lch "molto", RE.wsP]), lch "forte"],
      "Dolore addominale acuto"),
    (lch "sanguinamento", "Sanguinamento") ]

/-- `MENTAL_HEALTH_KEYWORDS` list. -/
def MENTAL_HEALTH_KEYWORDS : List String :=
  [ "ansia", "ansioso", "ansiosa", "attacco di panico", "panico",
    "depressione", "depresso", "depressa", "triste", "tristezza",
    "pensieri suicidi", "suicidio", "togliermi la vita",
    "autolesionismo", "tagliarmi", "farmi male",
    "stress", "burn out", "burnout", "esaurimento",
    "non ce la faccio più", "voglio morire" ]

/-- `INFO_KEYWORDS` list. -/
def INFO_KEYWORDS : List String :=
  [ "orari", "orario", "quando apre", "quando chiude",
    "farmacia", "farmacie di turno",
    "dove trovo", "dov\x27è", "come arrivo",
    "come funziona", "cos\x27è", "cosa fa",
    "prenot", "appuntamento",
    "numero", "telefono", "contatto" ]

/-- `mild_symptoms` list local to `classify_initial_urgency` STEP 5. -/
def mild_symptoms : List String :=
  [ "mal di testa", "cefalea", "raffreddore", "tosse",
    "naso chiuso", "febbre bassa", "febbre leggera" ]

/-! ### `classify_initial_urgency` -/

/-- `text_lower = first_message.lower().strip()`. -/
def normText (s : String) : List Char :=
  pyStrip (lowerL s.data)

/-- Default classification for empty / non-string input. -/
def emptyDefaultScore : UrgencyScore :=
  { score := 3, assigned_path := .C, assigned_branch := .TRIAGE,
    rationale := "Messaggio vuoto - default Path C",
    detected_red_flags := [], requires_immediate_118 := false }

/-- STEP 1 result: informational branch. -/
def infoScore (keyword : String) : UrgencyScore :=
  { score := 1, assigned_path := .C, assigned_branch := .INFORMAZIONI,
    rationale := "Informational request detected: \x27" ++ keyword ++ "\x27",
    detected_red_flags := [], requires_immediate_118 := false }

/-- STEP 2 result: critical red flag, 118 immediate. -/
def criticalScore (flag : String) : UrgencyScore :=
  { score := 5, assigned_path := .A, assigned_branch := .TRIAGE,
    rationale := "Critical emergency: " ++ flag,
    detected_red_flags := [flag], requires_immediate_118 := true }

/-- STEP 3 result: high red flag, Path A fast-track. -/
def highScore (flag : String) : UrgencyScore :=
  { score := 4, assigned_path := .A, assigned_branch := .TRIAGE,
    rationale := "High urgency: " ++ flag,
    detected_red_flags := [flag], requires_immediate_118 := false }

/-- STEP 4 result: mental-health keyword, Path B. -/
def mentalScore (keyword : String) : UrgencyScore :=
  { score := 3, assigned_path := .B, assigned_branch := .TRIAGE,
    rationale := "Mental health concern: \x27" ++ keyword ++ "\x27",
    detected_red_flags := [], requires_immediate_118 := false }

/-- STEP 5 result: mild symptom, Path C low urgency. -/
def mildScore (symptom : String) : UrgencyScore :=
  { score := 2, assigned_path := .C, assigned_branch := .TRIAGE,
    rationale := "Mild symptom: " ++ symptom,
    detected_red_flags := [], requires_immediate_118 := false }

/-- STEP 6 result: default Path C standard. -/
def standardScore : UrgencyScore :=
  { score := 3, assigned_path := .C, assigned_branch := .TRIAGE,
    rationale := "Standard triage path",
    detected_red_flags := [], requires_immediate_118 := false }

/-- The cascade of STEPs 1-6 over the lower-cased, stripped text.  Each loop
`for x in TABLE: if <match>: return ...` is the first match in declared
order (`List.find?`); Python dicts iterate in insertion order. -/
def classifyText (t : List Char) : UrgencyScore :=
  match INFO_KEYWORDS.find? (fun k => substrB k.data t) with
  | some k => infoScore k
  | none =>
    match CRITICAL_RED_FLAGS.find? (fun pr => reSearch pr.1 t) with
    | some pr => criticalScore pr.2
    | none =>
      match HIGH_RED_FLAGS.find? (fun pr => reSearch pr.1 t) with
      | some pr => highScore pr.2
      | none =>
        match MENTAL_HEALTH_KEYWORDS.find? (fun k => substrB k.data t) with
        | some k => mentalScore k
        | none =>
          match mild_symptoms.find? (fun k => substrB k.data t) with
          | some k => mildScore k
          | none => standardScore

/-- `SmartRouter.classify_initial_urgency`.  The input is `none` for Python
`None` or a non-string value (both fail the `isinstance` guard); an empty
string is falsy and takes the same default branch. -/
def classify_initial_urgency (first_message : Option String) : UrgencyScore :=
  match first_message with
  | none => emptyDefaultScore
  | some msg =>
    if msg.isEmpty then emptyDefaultScore
    else classifyText (normText msg)

/-! ### `route_to_phase` — FSM transition logic -/

/-- `SmartRouter.route_to_phase`: emergency override first, then the ordered
"first unset field" checks of the branch selected by `assigned_path`; every
value that is not `A` and not `B` takes the `else` (Path C) branch, exactly
as in the source. -/
def route_to_phase (state : TriageState) : TriagePhase × String :=
  -- === EMERGENCY OVERRIDE ===
  if state.has_critical_red_flags then
    (.EMERGENCY_OVERRIDE, "EMERGENZA: Chiama immediatamente il 118")
  -- === PATH A: Fast-Track (max 3 questions) ===
  else if state.assigned_path = .A then
    if pyTruthyStr state.patient_info.location = false then
      (.LOCATION, "In quale comune ti trovi? (Risposta rapida)")
    else if pyTruthyStr state.clinical_data.chief_complaint = false then
      (.CHIEF_COMPLAINT, "Descrivi brevemente il sintomo principale")
    else if state.clinical_data.red_flags.isEmpty then
      (.RED_FLAGS, "Hai difficoltà a respirare o dolore al petto?")
    else
      (.DISPOSITION, "Genero raccomandazione...")
  -- === PATH B: Mental Health (with consent) ===
  else if state.assigned_path = .B then
    if state.consent_given = false then
      (.INTENT_DETECTION,
        "Per offrirti il supporto migliore, ho bisogno di raccogliere alcune "
        ++ "informazioni sulla tua situazione. Sei d\x27accordo a continuare? (Sì/No)")
    else if pyTruthyStr state.patient_info.location = false then
      (.LOCATION, "In quale comune ti trovi?")
    else if pyTruthyNat state.patient_info.age = false then
      (.DEMOGRAPHICS, "Quanti anni hai? (Necessario per indirizzarti al servizio giusto)")
    else if pyTruthyStr state.clinical_data.chief_complaint = false then
      (.CHIEF_COMPLAINT, "Puoi dirmi cosa stai provando in questo momento?")
    else
      (.DISPOSITION, "Genero raccomandazione...")
  -- === PATH C: Standard Protocol ===
  else
    if pyTruthyStr state.patient_info.location = false then
      (.LOCATION, "In quale comune dell\x27Emilia-Romagna ti trovi?")
    else if pyTruthyStr state.clinical_data.chief_complaint = false then
      (.CHIEF_COMPLAINT, "Qual è il sintomo che ti preoccupa?")
    else if state.clinical_data.pain_scale = none then
      (.PAIN_ASSESSMENT, "Scala da 1 (lieve) a 10 (insopportabile), quanto è intenso?")
    else if state.clinical_data.red_flags.isEmpty then
      (.RED_FLAGS, "Hai difficoltà a respirare o dolore al petto?")
    else if pyTruthyNat state.patient_info.age = false then
      (.DEMOGRAPHICS, "Quanti anni hai?")
    else if state.clinical_data.medications.isEmpty then
      (.ANAMNESIS, "Prendi farmaci regolarmente?")
    else
      (.DISPOSITION, "Genero raccomandazione...")

/-! ### `route` — hierarchical facility routing -/

/-- Rule 1 result: urgency >= 4. -/
def psRec : FacilityRec :=
  { tipo := "PS", nome := "Pronto Soccorso",
    note := "Recati immediatamente in ospedale o chiama il 118.",
    distance_km := none }

/-- Rule 2 result: Path B / mental-health area. -/
def csmRec : FacilityRec :=
  { tipo := "CSM", nome := "Centro di Salute Mentale",
    note := "Contatta il servizio territoriale per una valutazione. "
      ++ "Per emergenze: 1522 (violenza), Telefono Amico 02 2327 2327",
    distance_km := none }

/-- Rule 3 result: gynecology / obstetrics / pregnancy area. -/
def consultorioRec : FacilityRec :=
  { tipo := "Consultorio", nome := "Consultorio Familiare",
    note := "Prenota una visita presso il consultorio di zona.",
    distance_km := none }

/-- Rule 4 result: addiction area. -/
def serdRec : FacilityRec :=
  { tipo := "SerD", nome := "SerD (Servizio Dipendenze)",
    note := "Accesso diretto o tramite MMG per supporto specialistico.",
    distance_km := none }

/-- Rule 5 result: urgency == 3 (enhanced CAU note). -/
def cau3Rec : FacilityRec :=
  { tipo := "CAU", nome := "CAU (Continuità Assistenziale Urgenze)",
    note := "Centro di Assistenza Urgenza per valutazioni senza appuntamento. "
      ++ "**AGGIORNAMENTO**: I CAU dell\x27Emilia-Romagna ora offrono "
      ++ "accesso h24, servizi diagnostici rapidi (ECG, radiologia di base) "
      ++ "e telemedicina. Trova il CAU più vicino tramite il numero unico 116117 "
      ++ "o l\x27app ER Salute.",
    distance_km := none }

/-- Rule 6 fallback result: urgency == 2, no specialized service found. -/
def cau2Rec : FacilityRec :=
  { tipo := "CAU", nome := "CAU (Continuità Assistenziale Urgenze)",
    note := "Centro di Assistenza Urgenza per valutazioni senza appuntamento. "
      ++ "Numero unico 116117 o app ER Salute.",
    distance_km := none }

/-- Rule 7 result: fallback MMG. -/
def mmgRec : FacilityRec :=
  { tipo := "MMG", nome := "Medico di Medicina Generale",
    note := "Contatta il tuo medico di base per una valutazione nei prossimi giorni.",
    distance_km := none }

/-- The `area_to_service` mapping local to `_search_specialized_service`
(exact dictionary lookup, not substring). -/
def area_to_service (area : String) : Option String :=
  if area = "Medicazioni" then some "poliambulatorio"
  else if area = "Prelievi" then some "poliambulatorio"
  else if area = "Vaccinazioni" then some "poliambulatorio"
  else if area = "Diabetologia" then some "ambulatorio_diabetologia"
  else if area = "Cardiologia" then some "ambulatorio_cardiologia"
  else if area = "Ortopedia" then some "ambulatorio_ortopedia"
  else none

/-- The recommendation `_search_specialized_service` builds from a matching
facility, with the source's `.get` defaults. -/
def specRec (service_type area : String) (f : Facility) : FacilityRec :=
  { tipo := service_type,
    nome := f.nome.getD "Servizio Specialistico",
    note := "Servizio dedicato per " ++ area ++ ". "
      ++ "Accesso: " ++ f.tipo_accesso.getD "Verificare modalità" ++ ". "
      ++ "Telefono: " ++ f.telefono.getD "N/D",
    distance_km := none }

/-- `location_lower = location.lower() if location else ""`: a falsy location
(Python `None` or `""`) lowers to the empty text. -/
def locLower (location : Option String) : List Char :=
  match location with
  | none => []
  | some s => if s.isEmpty then [] else lowerL s.data

/-- `SmartRouter._search_specialized_service`: map the area through
`area_to_service`, then return the first facility of that type whose town
and the supplied location are mutual case-insensitive substrings
(`location_lower in facility_comune or facility_comune in location_lower`). -/
def search_specialized_service (kb : List Facility) (location : Option String)
    (area : String) : Option FacilityRec :=
  match area_to_service area with
  | none => none
  | some service_type =>
    match (structuresOf kb service_type).find? (fun f =>
        substrB (locLower location) (lowerL (f.comune.getD "").data)
          || substrB (lowerL (f.comune.getD "").data) (locLower location)) with
    | some f => some (specRec service_type area f)
    | none => none

/-- `SmartRouter.route`: the decision cascade of rules 1-7, first match wins.
`kb` is the facility catalog behind `structures_kb`; `location` is `none`
for Python `None`. -/
def route (kb : List Facility) (location : Option String) (urgency : Int)
    (area : String) (path : Option TriagePath) : FacilityRec :=
  -- `loc = location.lower().strip() if location else ""` is only used for
  -- logging in the source and does not affect the result.
  -- === CRITICAL URGENCY → PS (always) ===
  if urgency ≥ 4 then psRec
  -- === PATH B: MENTAL HEALTH SPECIFIC ===
  else if path = some TriagePath.B ∨ strContains area "Psichiatria" = true
      ∨ strContains area "Mentale" = true then csmRec
  -- === GYNECOLOGY/OBSTETRICS → CONSULTORIO ===
  else if strContains area "Ginecologia" = true ∨ strContains area "Ostetricia" = true
      ∨ strContains area "Gravidanza" = true then consultorioRec
  -- === ADDICTIONS → SerD ===
  else if strContains area "Dipendenze" = true ∨ strContains area "Tossicodipendenza" = true
      ∨ strContains area "Alcol" = true then serdRec
  -- === MODERATE URGENCY (3) → CAU (ENHANCED) ===
  else if urgency = 3 then cau3Rec
  -- === URGENCY 2 → SEARCH SPECIALIZED SERVICES FIRST ===
  else if urgency = 2 then
    match search_specialized_service kb location area with
    | some specialized_service => specialized_service
    | none => cau2Rec
  -- === FALLBACK → MMG ===
  else mmgRec

set_option maxRecDepth 8000

/-! ### Helper lemmas -/

/-- No critical pattern matches the empty text. -/
theorem critical_nil_no_match : ∀ p ∈ CRITICAL_RED_FLAGS, reSearch p.1 [] = false := by
  decide

/-- Normalizing the empty string yields the empty text. -/
theorem normText_empty : normText "" = [] := rfl

/-- The empty needle is a substring of every text. -/
theorem substrB_nil_needle : ∀ l : List Char, substrB [] l = true := by
  intro l
  cases l with
  | nil => rfl
  | cons c cs => simp [substrB, litPref]

/-- A text with a critical match is not the normalization of `""`. -/
theorem ne_empty_of_critical_match (s : String)
    (hcrit : ∃ p ∈ CRITICAL_RED_FLAGS, reSearch p.1 (normText s) = true) :
    s ≠ "" := by
  rintro rfl
  obtain ⟨p, hp, hm⟩ := hcrit
  rw [normText_empty, critical_nil_no_match p hp] at hm
  exact Bool.false_ne_true hm

/-! ### C1 -/

/-- C1 counterexample: `"numero: dolore al petto"` contains the critical
red-flag phrase `"dolore al petto"`, yet `classify_initial_urgency` returns
the informational result (score 1, path C, no 118 flag) because the
informational keyword `"numero"` is checked first — refuting the claim that
every text containing a critical phrase yields score 5 / path A / 118. -/
theorem C1_counterexample :
    (∃ p ∈ CRITICAL_RED_FLAGS,
      reSearch p.1 (normText "numero: dolore al petto") = true) ∧
    (classify_initial_urgency (some "numero: dolore al petto")).score = 1 ∧
    (classify_initial_urgency (some "numero: dolore al petto")).assigned_path
      ≠ TriagePath.A ∧
    (classify_initial_urgency (some "numero: dolore al petto")).requires_immediate_118
      = false := by
  decide

/-- C1 (amended): for every text that contains a critical red-flag phrase and
no informational keyword, `classify_initial_urgency` returns score 5, path A,
`requires_immediate_118 = true`, and every entry of `detected_red_flags`
(which is nonempty) is the label of a critical pattern matching the text. -/
theorem C1_critical_red_flag_classification (s : String)
    (hinfo : ∀ k ∈ INFO_KEYWORDS, substrB k.data (normText s) = false)
    (hcrit : ∃ p ∈ CRITICAL_RED_FLAGS, reSearch p.1 (normText s) = true) :
    (classify_initial_urgency (some s)).score = 5 ∧
    (classify_initial_urgency (some s)).assigned_path = TriagePath.A ∧
    (classify_initial_urgency (some s)).requires_immediate_118 = true ∧
    (classify_initial_urgency (some s)).detected_red_flags ≠ [] ∧
    ∀ fl ∈ (classify_initial_urgency (some s)).detected_red_flags,
      ∃ p ∈ CRITICAL_RED_FLAGS, p.2 = fl ∧ reSearch p.1 (normText s) = true := by
  have hs : s ≠ "" := ne_empty_of_critical_match s hcrit
  have hne : ¬(s.isEmpty = true) := by rw [String.isEmpty_iff]; exact hs
  have hfindInfo :
      INFO_KEYWORDS.find? (fun k => substrB k.data (normText s)) = none :=
    List.find?_eq_none.mpr (by intro k hk; simp [hinfo k hk])
  have hsome :
      (CRITICAL_RED_FLAGS.find? (fun pr => reSearch pr.1 (normText s))).isSome := by
    rw [List.find?_isSome]; exact hcrit
  obtain ⟨pr, hpr⟩ := Option.isSome_iff_exists.mp hsome
  have hprP : reSearch pr.1 (normText s) = true := by
    have hp := List.find?_some hpr
    simpa using hp
  have hprMem : pr ∈ CRITICAL_RED_FLAGS := List.mem_of_find?_eq_some hpr
  have hcl : classify_initial_urgency (some s) = criticalScore pr.2 := by
    show (if s.isEmpty = true then emptyDefaultScore else classifyText (normText s))
      = criticalScore pr.2
    rw [if_neg hne]
    unfold classifyText
    rw [hfindInfo, hpr]
  rw [hcl]
  refine ⟨rfl, rfl, rfl, by simp [criticalScore], ?_⟩
  intro fl hfl
  simp only [criticalScore, List.mem_singleton] at hfl
  subst hfl
  exact ⟨pr, hprMem, rfl, hprP⟩

/-- C1 witness: `"ho dolore al petto"` satisfies both hypotheses and receives
the critical classification. -/
theorem C1_witness :
    ((∀ k ∈ INFO_KEYWORDS, substrB k.data (normText "ho dolore al petto") = false) ∧
     (∃ p ∈ CRITICAL_RED_FLAGS, reSearch p.1 (normText "ho dolore al petto") = true)) ∧
    ((classify_initial_urgency (some "ho dolore al petto")).score = 5 ∧
     (classify_initial_urgency (some "ho dolore al petto")).assigned_path = TriagePath.A ∧
     (classify_initial_urgency (some "ho dolore al petto")).requires_immediate_118 = true ∧
     (classify_initial_urgency (some "ho dolore al petto")).detected_red_flags ≠ [] ∧
     ∀ fl ∈ (classify_initial_urgency (some "ho dolore al petto")).detected_red_flags,
       ∃ p ∈ CRITICAL_RED_FLAGS, p.2 = fl ∧
         reSearch p.1 (normText "ho dolore al petto") = true) :=
  ⟨⟨by decide, by decide⟩,
    C1_critical_red_flag_classification "ho dolore al petto" (by decide) (by decide)⟩

/-! ### C2 -/

/-- C2: whenever `has_critical_red_flags()` holds, `route_to_phase` returns
`EMERGENCY_OVERRIDE` with the call-118 prompt, for every assigned path and
every combination of filled fields. -/
theorem C2_emergency_override (state : TriageState)
    (h : state.has_critical_red_flags = true) :
    route_to_phase state =
      (TriagePhase.EMERGENCY_OVERRIDE, "EMERGENZA: Chiama immediatamente il 118") := by
  unfold route_to_phase
  rw [if_pos h]

/-- C2 witness: a fully-filled Path B state with a recorded critical flag is
still routed to `EMERGENCY_OVERRIDE`. -/
theorem C2_witness :
    ({ assigned_path := TriagePath.B, assigned_branch := .TRIAGE,
       current_phase := .DISPOSITION, consent_given := true,
       patient_info := ⟨some "Bologna", some 40, some "F", some false⟩,
       clinical_data := ⟨some "dolore", some 7, ["dispnea"], ["aspirina"]⟩,
       critical_red_flags := ["Dolore toracico"] } : TriageState).has_critical_red_flags
      = true ∧
    route_to_phase
      { assigned_path := TriagePath.B, assigned_branch := .TRIAGE,
        current_phase := .DISPOSITION, consent_given := true,
        patient_info := ⟨some "Bologna", some 40, some "F", some false⟩,
        clinical_data := ⟨some "dolore", some 7, ["dispnea"], ["aspirina"]⟩,
        critical_red_flags := ["Dolore toracico"] } =
      (TriagePhase.EMERGENCY_OVERRIDE, "EMERGENZA: Chiama immediatamente il 118") :=
  ⟨by decide, C2_emergency_override _ (by decide)⟩

/-! ### C3 -/

/-- C3: informational keywords are checked before every red-flag pattern —
a text containing both an informational keyword and a critical red-flag
phrase is classified as branch INFORMAZIONI with score 1, path C and
`requires_immediate_118 = false`; the safety override is not reached. -/
theorem C3_info_keywords_precede_red_flags (s k : String) (p : RE × String)
    (hk : k ∈ INFO_KEYWORDS) (hks : substrB k.data (normText s) = true)
    (hp : p ∈ CRITICAL_RED_FLAGS) (hps : reSearch p.1 (normText s) = true) :
    (classify_initial_urgency (some s)).assigned_branch = TriageBranch.INFORMAZIONI ∧
    (classify_initial_urgency (some s)).score = 1 ∧
    (classify_initial_urgency (some s)).assigned_path = TriagePath.C ∧
    (classify_initial_urgency (some s)).requires_immediate_118 = false := by
  have hs : s ≠ "" := ne_empty_of_critical_match s ⟨p, hp, hps⟩
  have hne : ¬(s.isEmpty = true) := by rw [String.isEmpty_iff]; exact hs
  have hsome :
      (INFO_KEYWORDS.find? (fun k => substrB k.data (normText s))).isSome := by
    rw [List.find?_isSome]; exact ⟨k, hk, hks⟩
  obtain ⟨k0, hk0⟩ := Option.isSome_iff_exists.mp hsome
  have hcl : classify_initial_urgency (some s) = infoScore k0 := by
    show (if s.isEmpty = true then emptyDefaultScore else classifyText (normText s))
      = infoScore k0
    rw [if_neg hne]
    unfold classifyText
    rw [hk0]
  rw [hcl]
  exact ⟨rfl, rfl, rfl, rfl⟩

/-- C3 witness: `"numero: ho dolore al petto"` contains the informational
keyword `"numero"` and the critical phrase `"dolore al petto"`, and is
classified informational. -/
theorem C3_witness :
    ("numero" ∈ INFO_KEYWORDS ∧
     substrB "numero".data (normText "numero: ho dolore al petto") = true ∧
     CRITICAL_RED_FLAGS.head (by decide) ∈ CRITICAL_RED_FLAGS ∧
     reSearch (CRITICAL_RED_FLAGS.head (by decide)).1
       (normText "numero: ho dolore al petto") = true) ∧
    ((classify_initial_urgency (some "numero: ho dolore al petto")).assigned_branch
        = TriageBranch.INFORMAZIONI ∧
     (classify_initial_urgency (some "numero: ho dolore al petto")).score = 1 ∧
     (classify_initial_urgency (some "numero: ho dolore al petto")).assigned_path
        = TriagePath.C ∧
     (classify_initial_urgency (some "numero: ho dolore al petto")).requires_immediate_118
        = false) :=
  ⟨⟨by decide, by decide, by decide, by decide⟩,
    C3_info_keywords_precede_red_flags "numero: ho dolore al petto" "numero"
      (CRITICAL_RED_FLAGS.head (by decide)) (by decide) (by decide) (by decide) (by decide)⟩

/-! ### C4 -/

/-- C4: for every location, area and path, urgency >= 4 makes `route` return
`tipo = "PS"` — the emergency-department rule overrides every other signal,
including a mental-health area or path B. -/
theorem C4_ps_overrides_everything (kb : List Facility) (location : Option String)
    (urgency : Int) (area : String) (path : Option TriagePath)
    (h : 4 ≤ urgency) :
    (route kb location urgency area path).tipo = "PS" := by
  unfold route
  rw [if_pos h]
  rfl

/-- C4 witness: urgency 5 with a mental-health area and path B still routes
to the emergency department. -/
theorem C4_witness :
    (4 : Int) ≤ 5 ∧
    (route [] (some "Bologna") 5 "Psichiatria" (some TriagePath.B)).tipo = "PS" :=
  ⟨by decide, C4_ps_overrides_everything [] (some "Bologna") 5 "Psichiatria"
    (some TriagePath.B) (by decide)⟩

/-! ### C5 -/

/-- An all-empty state carrying an `assigned_path` value outside the enum. -/
def foreignPathState : TriageState :=
  { assigned_path := TriagePath.other "UNKNOWN_PATH", assigned_branch := .TRIAGE,
    current_phase := .LOCATION, consent_given := false,
    patient_info := ⟨none, none, none, none⟩,
    clinical_data := ⟨none, none, [], []⟩, critical_red_flags := [] }

/-- C5 counterexample: on a state whose `assigned_path` is not `A`, `B` or
`C`, `route_to_phase` produces Path C's first question — identical to the
result for path `C` itself — instead of reporting a contract violation (its
return type offers no error channel at all). -/
theorem C5_counterexample :
    route_to_phase foreignPathState
      = (TriagePhase.LOCATION, "In quale comune dell\x27Emilia-Romagna ti trovi?") ∧
    route_to_phase foreignPathState
      = route_to_phase { foreignPathState with assigned_path := TriagePath.C } := by
  decide

/-- C5 (amended): `route_to_phase` compares `assigned_path` only against `A`
and `B`; any other value — including values the core never assigns — is
silently routed through Path C's question sequence, with no contract
violation reported. -/
theorem C5_unknown_path_silently_defaults (state : TriageState)
    (h0 : state.has_critical_red_flags = false)
    (hA : state.assigned_path ≠ TriagePath.A)
    (hB : state.assigned_path ≠ TriagePath.B) :
    route_to_phase state
      = route_to_phase { state with assigned_path := TriagePath.C } := by
  have h0' : state.critical_red_flags.isEmpty = true := by
    simpa [TriageState.has_critical_red_flags] using h0
  unfold route_to_phase
  simp [TriageState.has_critical_red_flags, h0', hA, hB]

/-- C5 witness: the foreign-path state satisfies the hypotheses and is
routed exactly like a Path C state. -/
theorem C5_witness :
    (foreignPathState.has_critical_red_flags = false ∧
     foreignPathState.assigned_path ≠ TriagePath.A ∧
     foreignPathState.assigned_path ≠ TriagePath.B) ∧
    route_to_phase foreignPathState
      = route_to_phase { foreignPathState with assigned_path := TriagePath.C } :=
  ⟨⟨by decide, by decide, by decide⟩,
    C5_unknown_path_silently_defaults foreignPathState (by decide) (by decide) (by decide)⟩

/-! ### C8 -/

/-- A Path C state with location and chief complaint set and `pain_scale`
recorded as exactly 0. -/
def painZeroState : TriageState :=
  { assigned_path := TriagePath.C, assigned_branch := .TRIAGE,
    current_phase := .PAIN_ASSESSMENT, consent_given := false,
    patient_info := ⟨some "Bologna", none, none, none⟩,
    clinical_data := ⟨some "tosse", some 0, [], []⟩, critical_red_flags := [] }

/-- C8 counterexample: with `pain_scale = 0`, `route_to_phase` moves on to
`RED_FLAGS` instead of asking `PAIN_ASSESSMENT` again — the source checks
`pain_scale is None`, not truthiness, so 0 is distinguishable from unset. -/
theorem C8_counterexample :
    painZeroState.clinical_data.pain_scale = some 0 ∧
    route_to_phase painZeroState
      = (TriagePhase.RED_FLAGS, "Hai difficoltà a respirare o dolore al petto?") ∧
    (route_to_phase painZeroState).1 ≠ TriagePhase.PAIN_ASSESSMENT := by
  decide

/-- C8 (amended): in Path C (no critical flags, location and chief complaint
set) `route_to_phase` returns `PAIN_ASSESSMENT` exactly when `pain_scale` is
unset (`None`); a recorded 0 counts as answered and the machine proceeds. -/
theorem C8_pain_zero_is_answered (state : TriageState)
    (h0 : state.has_critical_red_flags = false)
    (hC : state.assigned_path = TriagePath.C)
    (hloc : pyTruthyStr state.patient_info.location = true)
    (hcc : pyTruthyStr state.clinical_data.chief_complaint = true) :
    (route_to_phase state).1 = TriagePhase.PAIN_ASSESSMENT ↔
      state.clinical_data.pain_scale = none := by
  unfold route_to_phase
  rw [if_neg (by simp [h0]), if_neg (by simp [hC]), if_neg (by simp [hC]),
      if_neg (by simp [hloc]), if_neg (by simp [hcc])]
  by_cases hp : state.clinical_data.pain_scale = none
  · rw [if_pos hp]
    simpa using hp
  · rw [if_neg hp]
    split_ifs <;> simp [hp]

/-- C8 witness: the pain-0 state satisfies the hypotheses; the equivalence
holds there (both sides false). -/
theorem C8_witness :
    (painZeroState.has_critical_red_flags = false ∧
     painZeroState.assigned_path = TriagePath.C ∧
     pyTruthyStr painZeroState.patient_info.location = true ∧
     pyTruthyStr painZeroState.clinical_data.chief_complaint = true) ∧
    ((route_to_phase painZeroState).1 = TriagePhase.PAIN_ASSESSMENT ↔
      painZeroState.clinical_data.pain_scale = none) :=
  ⟨⟨by decide, by decide, by decide, by decide⟩,
    C8_pain_zero_is_answered painZeroState (by decide) (by decide) (by decide) (by decide)⟩

/-! ### C9 -/

/-- C9: in Path A and Path C, once the earlier required fields are set, an
empty `red_flags` collection — even one deliberately recorded as "no red
flags" — makes `route_to_phase` return `RED_FLAGS` again (so `DISPOSITION`
cannot be reached while `red_flags` stays empty). -/
theorem C9_empty_red_flags_treated_unanswered (state : TriageState)
    (h0 : state.has_critical_red_flags = false)
    (hrf : state.clinical_data.red_flags = [])
    (hpath : state.assigned_path = TriagePath.A ∨ state.assigned_path = TriagePath.C)
    (hloc : pyTruthyStr state.patient_info.location = true)
    (hcc : pyTruthyStr state.clinical_data.chief_complaint = true)
    (hpain : state.assigned_path = TriagePath.C →
      state.clinical_data.pain_scale ≠ none) :
    route_to_phase state
      = (TriagePhase.RED_FLAGS, "Hai difficoltà a respirare o dolore al petto?") := by
  unfold route_to_phase
  rcases hpath with hA | hC
  · rw [if_neg (by simp [h0]), if_pos hA, if_neg (by simp [hloc]),
      if_neg (by simp [hcc]), if_pos (by simp [hrf])]
  · rw [if_neg (by simp [h0]), if_neg (by simp [hC]), if_neg (by simp [hC]),
      if_neg (by simp [hloc]), if_neg (by simp [hcc]),
      if_neg (hpain hC), if_pos (by simp [hrf])]

/-- A Path A state with location and chief complaint set and `red_flags`
recorded as the empty collection. -/
def emptyRedFlagsStateA : TriageState :=
  { assigned_path := TriagePath.A, assigned_branch := .TRIAGE,
    current_phase := .RED_FLAGS, consent_given := false,
    patient_info := ⟨some "Bologna", none, none, none⟩,
    clinical_data := ⟨some "febbre", none, [], []⟩, critical_red_flags := [] }

/-- C9 witness: the Path A state with empty `red_flags` is asked the red-flag
question again. -/
theorem C9_witness :
    (emptyRedFlagsStateA.has_critical_red_flags = false ∧
     emptyRedFlagsStateA.clinical_data.red_flags = [] ∧
     (emptyRedFlagsStateA.assigned_path = TriagePath.A ∨
      emptyRedFlagsStateA.assigned_path = TriagePath.C) ∧
     pyTruthyStr emptyRedFlagsStateA.patient_info.location = true ∧
     pyTruthyStr emptyRedFlagsStateA.clinical_data.chief_complaint = true ∧
     (emptyRedFlagsStateA.assigned_path = TriagePath.C →
      emptyRedFlagsStateA.clinical_data.pain_scale ≠ none)) ∧
    route_to_phase emptyRedFlagsStateA
      = (TriagePhase.RED_FLAGS, "Hai difficoltà a respirare o dolore al petto?") :=
  ⟨⟨by decide, by decide, by decide, by decide, by decide, by decide⟩,
    C9_empty_red_flags_treated_unanswered emptyRedFlagsStateA
      (by decide) (by decide) (by decide) (by decide) (by decide) (by decide)⟩

/-! ### C6 -/

/-- A well-formed urgency result: score within 1..5 and the safety flag only
with score 5 / path A (the `UrgencyScore` invariant of the data model). -/
def validUrgency (u : UrgencyScore) : Bool :=
  decide (1 ≤ u.score) && decide (u.score ≤ 5) &&
  (!u.requires_immediate_118 ||
    (decide (u.score = 5) && decide (u.assigned_path = TriagePath.A)))

/-- A well-formed phase result: a phase paired with a nonempty prompt. -/
def validPhasePrompt (r : TriagePhase × String) : Bool :=
  !r.2.isEmpty

/-- A well-formed recommendation: unknown distance and a nonempty type. -/
def validRec (r : FacilityRec) : Bool :=
  decide (r.distance_km = none) && !r.tipo.isEmpty

/-- Every classification of any text is a well-formed urgency result. -/
theorem classifyText_valid (t : List Char) : validUrgency (classifyText t) = true := by
  unfold classifyText
  repeat' split
  all_goals rfl

/-- A mapped facility type is never the empty string. -/
theorem area_to_service_isEmpty_false (area t : String)
    (h : area_to_service area = some t) : t.isEmpty = false := by
  unfold area_to_service at h
  split_ifs at h
  all_goals obtain rfl := Option.some.inj h
  all_goals rfl

/-- Whatever `_search_specialized_service` returns is a well-formed
recommendation. -/
theorem search_some_valid {kb : List Facility} {location : Option String}
    {area : String} {r : FacilityRec}
    (h : search_specialized_service kb location area = some r) :
    validRec r = true := by
  unfold search_specialized_service at h
  split at h
  all_goals try exact Option.noConfusion h
  rename_i t heq
  split at h
  all_goals try exact Option.noConfusion h
  rename_i f hf
  obtain rfl := Option.some.inj h
  simp [validRec, specRec, area_to_service_isEmpty_false area t heq]

/-- C6: the three operations are total over their declared domain and always
return well-formed results: classification of any (possibly absent, empty or
non-string) message gives a score in 1..5 whose safety flag entails score 5
and path A, with the fixed default for empty input; `route_to_phase` always
returns a phase with a nonempty prompt; `route` always returns a
recommendation with unknown distance and a nonempty facility type. -/
theorem C6_operations_total :
    (∀ msg : Option String, validUrgency (classify_initial_urgency msg) = true) ∧
    (classify_initial_urgency none = emptyDefaultScore ∧
     classify_initial_urgency (some "") = emptyDefaultScore) ∧
    (∀ state : TriageState, validPhasePrompt (route_to_phase state) = true) ∧
    (∀ (kb : List Facility) (location : Option String) (urgency : Int)
       (area : String) (path : Option TriagePath),
       validRec (route kb location urgency area path) = true) := by
  refine ⟨?_, ⟨rfl, rfl⟩, ?_, ?_⟩
  · intro msg
    cases msg with
    | none => rfl
    | some s =>
      show validUrgency
        (if s.isEmpty = true then emptyDefaultScore else classifyText (normText s)) = true
      split
      · rfl
      · exact classifyText_valid (normText s)
  · intro state
    unfold route_to_phase
    repeat' split
    all_goals rfl
  · intro kb location urgency area path
    unfold route
    repeat' split
    all_goals try rfl
    next r heq => exact search_some_valid heq

/-! ### C7 -/

/-- When rules 1-5 do not fire, `route` at urgency 2 is the specialized
search with the urgency-2 CAU fallback. -/
theorem route_urgency2_eq (kb : List Facility) (location : Option String)
    (area : String) (path : Option TriagePath)
    (hpath : path ≠ some TriagePath.B)
    (h1 : strContains area "Psichiatria" = false)
    (h2 : strContains area "Mentale" = false)
    (h3 : strContains area "Ginecologia" = false)
    (h4 : strContains area "Ostetricia" = false)
    (h5 : strContains area "Gravidanza" = false)
    (h6 : strContains area "Dipendenze" = false)
    (h7 : strContains area "Tossicodipendenza" = false)
    (h8 : strContains area "Alcol" = false) :
    route kb location 2 area path =
      match search_specialized_service kb location area with
      | some r => r
      | none => cau2Rec := by
  unfold route
  rw [if_neg (by decide), if_neg (by simpa [h1, h2] using hpath),
    if_neg (by simp [h3, h4, h5]), if_neg (by simp [h6, h7, h8]),
    if_neg (by decide), if_pos rfl]

/-- C7 counterexample: at urgency 2 with an unmapped area the fallback is the
CAU recommendation with the short 116117 note, which differs from rule 5's
(urgency 3) extended CAU note — refuting "carrying rule 5's note". -/
theorem C7_counterexample :
    route [] (some "Bologna") 2 "Generale" none = cau2Rec ∧
    route [] (some "Bologna") 3 "Generale" none = cau3Rec ∧
    cau2Rec.note ≠ cau3Rec.note := by
  decide

/-- C7 (amended): for urgency 2 with no earlier rule matching, `route` maps
the area through the fixed table and returns the first facility of the mapped
type whose town and the supplied location are mutual case-insensitive
substrings (`search_specialized_service`); if no type is mapped or no
facility matches, it falls back to a CAU result with the same `tipo` and
`nome` as rule 5's CAU but its own shorter note, not rule 5's note. -/
theorem C7_urgency2_specialized_search (kb : List Facility)
    (location : Option String) (area : String) (path : Option TriagePath)
    (hpath : path ≠ some TriagePath.B)
    (h1 : strContains area "Psichiatria" = false)
    (h2 : strContains area "Mentale" = false)
    (h3 : strContains area "Ginecologia" = false)
    (h4 : strContains area "Ostetricia" = false)
    (h5 : strContains area "Gravidanza" = false)
    (h6 : strContains area "Dipendenze" = false)
    (h7 : strContains area "Tossicodipendenza" = false)
    (h8 : strContains area "Alcol" = false) :
    (route kb location 2 area path =
      match search_specialized_service kb location area with
      | some r => r
      | none => cau2Rec) ∧
    cau2Rec.tipo = cau3Rec.tipo ∧ cau2Rec.nome = cau3Rec.nome ∧
    cau2Rec.note ≠ cau3Rec.note :=
  ⟨route_urgency2_eq kb location area path hpath h1 h2 h3 h4 h5 h6 h7 h8,
    by decide, by decide, by decide⟩

/-- A one-facility catalog: a diabetology clinic registered in Bologna. -/
def kbDiabetologia : List Facility :=
  [⟨some "ambulatorio_diabetologia", some "Bologna",
    some "Ambulatorio Diabetologia Bologna", some "CUP", some "051 123456"⟩]

/-- C7 witness: urgency 2, area `Diabetologia`, location `Bologna` — the
hypotheses hold and `route` equals the search-or-fallback expression. -/
theorem C7_witness :
    ((none : Option TriagePath) ≠ some TriagePath.B ∧
     strContains "Diabetologia" "Psichiatria" = false ∧
     strContains "Diabetologia" "Mentale" = false ∧
     strContains "Diabetologia" "Ginecologia" = false ∧
     strContains "Diabetologia" "Ostetricia" = false ∧
     strContains "Diabetologia" "Gravidanza" = false ∧
     strContains "Diabetologia" "Dipendenze" = false ∧
     strContains "Diabetologia" "Tossicodipendenza" = false ∧
     strContains "Diabetologia" "Alcol" = false) ∧
    ((route kbDiabetologia (some "Bologna") 2 "Diabetologia" none =
      match search_specialized_service kbDiabetologia (some "Bologna") "Diabetologia" with
      | some r => r
      | none => cau2Rec) ∧
     cau2Rec.tipo = cau3Rec.tipo ∧ cau2Rec.nome = cau3Rec.nome ∧
     cau2Rec.note ≠ cau3Rec.note) :=
  ⟨⟨by decide, by decide, by decide, by decide, by decide, by decide, by decide,
    by decide, by decide⟩,
    C7_urgency2_specialized_search kbDiabetologia (some "Bologna") "Diabetologia" none
      (by decide) (by decide) (by decide) (by decide) (by decide) (by decide)
      (by decide) (by decide) (by decide)⟩

/-! ### C10 -/

/-- A mapped area contains none of the special-area substrings of rules 2-4. -/
theorem area_mapped_not_special (area t : String)
    (h : area_to_service area = some t) :
    strContains area "Psichiatria" = false ∧ strContains area "Mentale" = false ∧
    strContains area "Ginecologia" = false ∧ strContains area "Ostetricia" = false ∧
    strContains area "Gravidanza" = false ∧ strContains area "Dipendenze" = false ∧
    strContains area "Tossicodipendenza" = false ∧ strContains area "Alcol" = false := by
  unfold area_to_service at h
  split_ifs at h with h1 h2 h3 h4 h5 h6
  · subst h1; decide
  · subst h2; decide
  · subst h3; decide
  · subst h4; decide
  · subst h5; decide
  · subst h6; decide

/-- C10: at urgency 2 with a mapped area and a falsy location (`None` or
`""`), `route` returns the recommendation built from the first facility of
the mapped type in the catalog, whatever its registered town: the empty
location string substring-matches every town. -/
theorem C10_empty_location_first_facility (kb : List Facility)
    (location : Option String) (area t : String) (path : Option TriagePath)
    (f : Facility) (rest : List Facility)
    (hmap : area_to_service area = some t)
    (hpath : path ≠ some TriagePath.B)
    (hloc : location = none ∨ location = some "")
    (hfs : structuresOf kb t = f :: rest) :
    route kb location 2 area path = specRec t area f := by
  obtain ⟨c1, c2, c3, c4, c5, c6, c7, c8⟩ := area_mapped_not_special area t hmap
  rw [route_urgency2_eq kb location area path hpath c1 c2 c3 c4 c5 c6 c7 c8]
  have hll : locLower location = [] := by
    rcases hloc with rfl | rfl <;> rfl
  have hfind : (structuresOf kb t).find? (fun f =>
      substrB (locLower location) (lowerL (f.comune.getD "").data)
        || substrB (lowerL (f.comune.getD "").data) (locLower location)) = some f := by
    rw [hfs]
    apply List.find?_cons_of_pos
    simp [hll, substrB_nil_needle]
  simp only [search_specialized_service, hmap, hfind]

/-- The first cardiology facility of the two-facility catalog (Modena). -/
def cardioMO : Facility :=
  ⟨some "ambulatorio_cardiologia", some "Modena",
    some "Ambulatorio Cardiologia Modena", none, none⟩

/-- The second cardiology facility of the two-facility catalog (Parma). -/
def cardioPR : Facility :=
  ⟨some "ambulatorio_cardiologia", some "Parma",
    some "Ambulatorio Cardiologia Parma", none, none⟩

/-- A catalog with two cardiology clinics in different towns. -/
def kbCardiologia : List Facility := [cardioMO, cardioPR]

/-- C10 witness: with location `None` and area `Cardiologia`, `route` returns
the first cardiology facility (registered in Modena) even though no town was
supplied. -/
theorem C10_witness :
    (area_to_service "Cardiologia" = some "ambulatorio_cardiologia" ∧
     (none : Option TriagePath) ≠ some TriagePath.B ∧
     ((none : Option String) = none ∨ (none : Option String) = some "") ∧
     structuresOf kbCardiologia "ambulatorio_cardiologia" = cardioMO :: [cardioPR]) ∧
    route kbCardiologia none 2 "Cardiologia" none
      = specRec "ambulatorio_cardiologia" "Cardiologia" cardioMO :=
  ⟨⟨by decide, by decide, Or.inl rfl, by decide⟩,
    C10_empty_location_first_facility kbCardiologia none "Cardiologia"
      "ambulatorio_cardiologia" none cardioMO [cardioPR]
      (by decide) (by decide) (Or.inl rfl) (by decide)⟩
